import Mathlib

/-!
Shallow embedding of azure_rm_securitygroup_facts.py: a facts-retrieval
module that either fetches one named network security group or lists all
groups in a resource group, serializing the results into a result envelope.

Provider calls (network_client.network_security_groups.get / .list) are
modelled as an explicit Provider record; Python exceptions are modelled as
Except values, distinguishing the SDK-classified CloudError (which the
single-item path catches) from any other exception type (which it does not).
Each module function also returns the list of provider calls it performed,
so that lookup-mode claims can be stated.
-/

namespace SecurityGroupFacts

/-- Source constant AZURE_OBJECT_CLASS (line 241). -/
def AZURE_OBJECT_CLASS : String := "NetworkSecurityGroup"

/-- A CloudError raised by the SDK: carries whether it is classified as
not-found, and its message (str(exc)). -/
structure CloudErr where
  notFound : Bool
  msg : String
deriving DecidableEq, Repr

/-- An exception a provider call may raise: either an SDK CloudError, or
any other exception type (transport errors, serialization errors, ...). -/
inductive ProviderExc where
  | cloud : CloudErr → ProviderExc
  | other : String → ProviderExc
deriving DecidableEq, Repr

/-- Python str(exc) on a provider exception. -/
def excStr : ProviderExc → String
  | .cloud ce => ce.msg
  | .other m => m

/-- A raw provider-returned resource: an opaque object whose declared
public attributes are modelled as a name/value list. -/
structure RawResource where
  attrs : List (String × String)
deriving DecidableEq, Repr

/-- A serialized (flattened) resource: the caller-supplied object-type
label plus the flattened attribute mapping. -/
structure NormalizedResource where
  typeLabel : String
  fields : List (String × String)
deriving DecidableEq, Repr

/-- Modelled from the spec: serialize_obj, the serialization utility from
azure_rm_common that is not part of this repository file. Per the spec it
flattens the raw object's declared attributes into a plain mapping and tags
the object-type attribute with the caller-supplied class label. -/
def serialize_obj (item : RawResource) (cls : String) : NormalizedResource :=
  { typeLabel := cls, fields := item.attrs }

/-- The provider client collaborator: get(resource_group, name) either
raises, returns an object, or returns a falsy value (modelled as none);
list(resource_group) either raises or returns a sequence of resources. -/
structure Provider where
  get : String → String → Except ProviderExc (Option RawResource)
  list : String → Except ProviderExc (List RawResource)

/-- A provider call performed by the module, recorded for trace claims. -/
inductive ProviderCall where
  | getCall (resource_group name : String)
  | listCall (resource_group : String)
deriving DecidableEq, Repr

/-- How a module run terminates unsuccessfully: a self.fail(msg) terminal
failure, or an exception that propagates uncaught out of the module code. -/
inductive Failure where
  | fail (msg : String)
  | uncaught (e : ProviderExc)
deriving DecidableEq, Repr

/-- The result envelope dict (source lines 255-259). -/
structure Results where
  changed : Bool
  check_mode : Bool
  results : List NormalizedResource
deriving DecidableEq, Repr

/-- The initial self.results dict set in __init__ (lines 255-259):
changed=False, check_mode as given, results=[]. -/
def initial_results (check_mode : Bool) : Results :=
  { changed := false, check_mode := check_mode, results := [] }

/-- get_item (source lines 276-289): tries the provider get; a CloudError
is caught and ignored (item stays None); any other exception propagates
uncaught. If the fetched item is truthy it is serialized into a singleton
list, otherwise the result is the empty list. Also records the one get
call performed. -/
def get_item (p : Provider) (resource_group name : String) :
    Except Failure (List NormalizedResource) × List ProviderCall :=
  (match p.get resource_group name with
   | .error (.cloud _) => .ok []
   | .error (.other m) => .error (.uncaught (.other m))
   | .ok none => .ok []
   | .ok (some item) => .ok [serialize_obj item AZURE_OBJECT_CLASS],
   [ProviderCall.getCall resource_group name])

/-- list_items (source lines 291-301): tries the provider list; any
exception leads to self.fail with a message embedding str(exc). On
success every returned item is serialized, in iteration order. Also
records the one list call performed. -/
def list_items (p : Provider) (resource_group : String) :
    Except Failure (List NormalizedResource) × List ProviderCall :=
  (match p.list resource_group with
   | .error exc => .error (.fail ("Error listing all items - " ++ excStr exc))
   | .ok response => .ok (response.map (fun item => serialize_obj item AZURE_OBJECT_CLASS)),
   [ProviderCall.listCall resource_group])

/-- exec_module_impl (source lines 264-274): if name is not None the
single-item path runs, otherwise the listing path; the chosen path's
result is stored into the results field of the initial envelope, and a
failure from the chosen path propagates. -/
def exec_module_impl (p : Provider) (check_mode : Bool)
    (name : Option String) (resource_group : String) :
    Except Failure Results × List ProviderCall :=
  match name with
  | some n =>
    ((get_item p resource_group n).1.map
       (fun rs => { initial_results check_mode with results := rs }),
     (get_item p resource_group n).2)
  | none =>
    ((list_items p resource_group).1.map
       (fun rs => { initial_results check_mode with results := rs }),
     (list_items p resource_group).2)

/-! Concrete providers used by witnesses and counterexamples. -/

/-- A sample raw resource. -/
def raw1 : RawResource := { attrs := [("name", "secgroup001"), ("location", "eastus2")] }

/-- A second sample raw resource. -/
def raw2 : RawResource := { attrs := [("name", "secgroup002"), ("location", "eastus2")] }

/-- A provider whose list succeeds with two resources and whose get finds nothing. -/
def listOkProvider : Provider :=
  { get := fun _ _ => .ok none, list := fun _ => .ok [raw1, raw2] }

/-- A provider whose list raises a generic exception. -/
def listErrProvider : Provider :=
  { get := fun _ _ => .ok none, list := fun _ => .error (.other "boom") }

/-- A provider whose get raises a CloudError classified as not-found. -/
def notFoundProvider : Provider :=
  { get := fun _ _ => .error (.cloud { notFound := true, msg := "ResourceNotFound" }),
    list := fun _ => .ok [] }

/-- A provider whose get raises a CloudError that is not a not-found error. -/
def cloudErrProvider : Provider :=
  { get := fun _ _ => .error (.cloud { notFound := false, msg := "AuthorizationFailed" }),
    list := fun _ => .ok [] }

/-- A provider whose get raises a non-CloudError exception. -/
def otherErrProvider : Provider :=
  { get := fun _ _ => .error (.other "connection reset"), list := fun _ => .ok [] }

/-- A provider whose get finds raw1. -/
def foundProvider : Provider :=
  { get := fun _ _ => .ok (some raw1), list := fun _ => .ok [] }

/-- A provider whose get returns a falsy value without raising. -/
def falsyGetProvider : Provider :=
  { get := fun _ _ => .ok none, list := fun _ => .ok [] }

/-- Same responses as falsyGetProvider, written differently. -/
def falsyGetProviderTwin : Provider :=
  { get := fun _ _ => .ok (id none), list := fun _ => .ok (id []) }

/-! Claim theorems. -/

/-- C1: when the name field is non-null the module performs exactly one
single-item provider get(resource_group, name) with the name passed
verbatim (no partial matching, no wildcards), and when name is absent it
performs exactly one collection listing list(resource_group). -/
theorem c1_lookup_mode (p : Provider) (cm : Bool) (rg : String) :
    (∀ n, (exec_module_impl p cm (some n) rg).2 = [ProviderCall.getCall rg n]) ∧
    (exec_module_impl p cm none rg).2 = [ProviderCall.listCall rg] :=
  ⟨fun _ => rfl, rfl⟩

/-- C2: when name is absent and the provider list call raises any error,
the run terminates as a self.fail failure whose message contains the
provider's original error text, and no Results envelope (hence zero
results) is returned. -/
theorem c2_listing_error_fatal (p : Provider) (cm : Bool) (rg : String) (e : ProviderExc)
    (h : p.list rg = .error e) :
    (exec_module_impl p cm none rg).1 =
      .error (.fail ("Error listing all items - " ++ excStr e)) ∧
    (∃ pre suf, "Error listing all items - " ++ excStr e = pre ++ excStr e ++ suf) ∧
    ∀ r : Results, (exec_module_impl p cm none rg).1 ≠ .ok r := by
  have h1 : (exec_module_impl p cm none rg).1 =
      .error (.fail ("Error listing all items - " ++ excStr e)) := by
    simp [exec_module_impl, list_items, h, Except.map]
  refine ⟨h1, ⟨"Error listing all items - ", "", by simp⟩, ?_⟩
  intro r hr
  rw [h1] at hr
  exact Except.noConfusion hr

/-- C2 witness: at a concrete provider whose list raises, the run ends in
the expected terminal failure. -/
theorem c2_listing_error_fatal_witness :
    (exec_module_impl listErrProvider false none "Testing").1 =
      .error (.fail ("Error listing all items - " ++ excStr (.other "boom"))) :=
  (c2_listing_error_fatal listErrProvider false "Testing" (.other "boom") rfl).1

/-- C3: when the provider get raises a CloudError classified as not-found,
the single-item run succeeds with an empty results sequence; the absence
is not surfaced as an error. -/
theorem c3_not_found_is_empty_success (p : Provider) (cm : Bool) (rg n : String)
    (ce : CloudErr) (hnf : ce.notFound = true)
    (h : p.get rg n = .error (.cloud ce)) :
    (exec_module_impl p cm (some n) rg).1 =
      .ok { changed := false, check_mode := cm, results := [] } := by
  simp [exec_module_impl, get_item, h, initial_results, Except.map]

/-- C3 witness: at a concrete provider raising a classified not-found
CloudError, the run succeeds with empty results. -/
theorem c3_not_found_is_empty_success_witness :
    (exec_module_impl notFoundProvider false (some "secgroup001") "Testing").1 =
      .ok { changed := false, check_mode := false, results := [] } :=
  c3_not_found_is_empty_success notFoundProvider false "Testing" "secgroup001"
    { notFound := true, msg := "ResourceNotFound" } rfl rfl

/-- C4 counterexample: a provider get raising a non-CloudError exception is
not suppressed: the operation aborts with an uncaught exception instead of
yielding an empty results sequence, refuting the claim that every provider
error on the single-item path is swallowed. -/
theorem c4_counterexample :
    (exec_module_impl otherErrProvider false (some "secgroup001") "Testing").1 =
      .error (.uncaught (.other "connection reset")) ∧
    (exec_module_impl otherErrProvider false (some "secgroup001") "Testing").1 ≠
      .ok { changed := false, check_mode := false, results := [] } := by
  constructor
  · rfl
  · intro h
    exact Except.noConfusion h

/-- C4 amended: every CloudError raised during the single-item fetch (not
only the classified not-found one) is suppressed identically, yielding an
empty results sequence; a non-CloudError exception is not caught and
aborts the operation. -/
theorem c4_amended_suppression (p : Provider) (cm : Bool) (rg n : String) :
    (∀ ce : CloudErr, p.get rg n = .error (.cloud ce) →
       (exec_module_impl p cm (some n) rg).1 =
         .ok { changed := false, check_mode := cm, results := [] }) ∧
    (∀ m : String, p.get rg n = .error (.other m) →
       (exec_module_impl p cm (some n) rg).1 = .error (.uncaught (.other m))) := by
  constructor
  · intro ce h
    simp [exec_module_impl, get_item, h, initial_results, Except.map]
  · intro m h
    simp [exec_module_impl, get_item, h, Except.map]

/-- C4 amended witness: a concrete CloudError that is not a not-found is
suppressed into an empty successful result. -/
theorem c4_amended_suppression_witness :
    (exec_module_impl cloudErrProvider false (some "secgroup001") "Testing").1 =
      .ok { changed := false, check_mode := false, results := [] } :=
  (c4_amended_suppression cloudErrProvider false "Testing" "secgroup001").1
    { notFound := false, msg := "AuthorizationFailed" } rfl

/-- C5: when name is absent and the provider list succeeds with a sequence
of raw resources, the run succeeds with a results sequence of the same
length in which each element is the serialization of the corresponding
raw resource. -/
theorem c5_listing_success_lengths (p : Provider) (cm : Bool) (rg : String)
    (xs : List RawResource) (h : p.list rg = .ok xs) :
    (exec_module_impl p cm none rg).1 =
      .ok { changed := false, check_mode := cm,
            results := xs.map (fun x => serialize_obj x AZURE_OBJECT_CLASS) } ∧
    (xs.map (fun x => serialize_obj x AZURE_OBJECT_CLASS)).length = xs.length := by
  constructor
  · simp [exec_module_impl, list_items, h, initial_results, Except.map]
  · exact List.length_map xs _

/-- C5 witness: at a concrete provider listing two resources, the run
succeeds with exactly their two serializations. -/
theorem c5_listing_success_lengths_witness :
    (exec_module_impl listOkProvider false none "Testing").1 =
      .ok { changed := false, check_mode := false,
            results := [serialize_obj raw1 AZURE_OBJECT_CLASS,
                        serialize_obj raw2 AZURE_OBJECT_CLASS] } :=
  (c5_listing_success_lengths listOkProvider false "Testing" [raw1, raw2] rfl).1

/-- C6: when the provider get returns an existing item, the single-item
run succeeds with exactly one normalized resource whose object-type label
is the constant AZURE_OBJECT_CLASS; and for every provider, any successful
get_item result has length at most one. -/
theorem c6_single_found (p : Provider) (cm : Bool) (rg n : String)
    (item : RawResource) (h : p.get rg n = .ok (some item)) :
    (exec_module_impl p cm (some n) rg).1 =
      .ok { changed := false, check_mode := cm,
            results := [serialize_obj item AZURE_OBJECT_CLASS] } ∧
    (serialize_obj item AZURE_OBJECT_CLASS).typeLabel = AZURE_OBJECT_CLASS ∧
    ∀ (q : Provider) (rs : List NormalizedResource),
      (get_item q rg n).1 = .ok rs → rs.length ≤ 1 := by
  refine ⟨?_, rfl, ?_⟩
  · simp [exec_module_impl, get_item, h, initial_results, Except.map]
  · intro q rs hq
    simp only [get_item] at hq
    rcases hget : q.get rg n with e | v
    · rcases e with ce | m <;> rw [hget] at hq
      · cases hq; simp
      · exact Except.noConfusion hq
    · rcases v with _ | it <;> rw [hget] at hq
      · cases hq; simp
      · cases hq; simp

/-- C6 witness: a concrete provider finding raw1 yields exactly one
result tagged with the constant label. -/
theorem c6_single_found_witness :
    (exec_module_impl foundProvider false (some "secgroup001") "Testing").1 =
      .ok { changed := false, check_mode := false,
            results := [serialize_obj raw1 AZURE_OBJECT_CLASS] } :=
  (c6_single_found foundProvider false "Testing" "secgroup001" raw1 rfl).1

/-- C7: every result envelope a run returns has changed = false; no code
path sets it to true. -/
theorem c7_changed_always_false (p : Provider) (cm : Bool) (name : Option String)
    (rg : String) (r : Results)
    (h : (exec_module_impl p cm name rg).1 = .ok r) :
    r.changed = false := by
  rcases name with _ | n
  · simp only [exec_module_impl] at h
    rcases hl : (list_items p rg).1 with e | rs <;> rw [hl] at h
    · exact Except.noConfusion h
    · cases h; rfl
  · simp only [exec_module_impl] at h
    rcases hg : (get_item p rg n).1 with e | rs <;> rw [hg] at h
    · exact Except.noConfusion h
    · cases h; rfl

/-- C7 witness: a concrete successful run returns changed = false. -/
theorem c7_changed_always_false_witness :
    Results.changed { changed := false, check_mode := false, results := [] } = false :=
  c7_changed_always_false falsyGetProvider false (some "x") "Testing"
    { changed := false, check_mode := false, results := [] } rfl

/-- C8: two invocations with the identical query against providers that
return the same values for the relevant get and list calls produce the
identical result envelope and call trace: the module adds no
nondeterminism and keeps no state across invocations. -/
theorem c8_deterministic (p q : Provider) (cm : Bool) (name : Option String)
    (rg : String) (hg : ∀ n, p.get rg n = q.get rg n)
    (hl : p.list rg = q.list rg) :
    exec_module_impl p cm name rg = exec_module_impl q cm name rg := by
  rcases name with _ | n
  · simp [exec_module_impl, list_items, hl]
  · simp [exec_module_impl, get_item, hg n]

/-- C8 witness: two distinct provider definitions with equal responses
give identical envelopes. -/
theorem c8_deterministic_witness :
    exec_module_impl falsyGetProvider false (some "x") "Testing" =
      exec_module_impl falsyGetProviderTwin false (some "x") "Testing" :=
  c8_deterministic falsyGetProvider falsyGetProviderTwin false (some "x") "Testing"
    (fun _ => rfl) rfl

/-- C9: when the provider get returns without raising but yields a falsy
value, the single-item run succeeds with an empty results sequence and no
serialization of the value appears in it. -/
theorem c9_falsy_item_not_serialized (p : Provider) (cm : Bool) (rg n : String)
    (h : p.get rg n = .ok none) :
    (get_item p rg n).1 = .ok [] ∧
    (exec_module_impl p cm (some n) rg).1 =
      .ok { changed := false, check_mode := cm, results := [] } := by
  constructor
  · simp [get_item, h]
  · simp [exec_module_impl, get_item, h, initial_results, Except.map]

/-- C9 witness: a concrete provider returning a falsy item yields empty
results. -/
theorem c9_falsy_item_not_serialized_witness :
    (exec_module_impl falsyGetProvider false (some "secgroup001") "Testing").1 =
      .ok { changed := false, check_mode := false, results := [] } :=
  (c9_falsy_item_not_serialized falsyGetProvider false "Testing" "secgroup001" rfl).2

/-- C10: on a successful listing, list_items returns exactly the map of
the serialization over the provider's sequence: serialized items appear in
iteration order with no reordering, filtering or deduplication. -/
theorem c10_order_preserved (p : Provider) (rg : String)
    (xs : List RawResource) (h : p.list rg = .ok xs) :
    (list_items p rg).1 =
      .ok (xs.map (fun item => serialize_obj item AZURE_OBJECT_CLASS)) := by
  simp [list_items, h]

/-- C10 witness: the two listed resources come back serialized in
listing order. -/
theorem c10_order_preserved_witness :
    (list_items listOkProvider "Testing").1 =
      .ok [serialize_obj raw1 AZURE_OBJECT_CLASS,
           serialize_obj raw2 AZURE_OBJECT_CLASS] :=
  c10_order_preserved listOkProvider "Testing" [raw1, raw2] rfl

end SecurityGroupFacts
